import Mathlib

/-!
Verification development for the GrandQC pipeline orchestrator.

The orchestration logic of the repository lives in two places:

* `01_WSI_inference_OPENSLIDE_QC/run_art.sh` — a bash wrapper (under
  `set -e`) which parses command-line flags, validates the slide path,
  creates the run workspace, copies the slide, and invokes the four
  pipeline stages (tissue detection, QC analysis, HTML report,
  overlays) sequentially; and
* `external/pathology-app/src/main.ts` — the Electron main process,
  whose `pathInsight:start-pipeline` IPC handler resolves the repo
  root from a candidate list, prepares the workspace, copies the
  slide with `copyFileSync`, and invokes five stages (tissue
  detection, QC, HTML report, PDF report, overlays) via a `runCmd`
  helper that rejects when the child exits nonzero; plus the
  `pathInsight:open-report` / `pathInsight:open-pdf` handlers.

Both are embedded below as pure functions over explicit environments
(the file system, the exit code of each stage's process, dialog
results), returning the IPC result / exit status together with the
list of workspace side effects and the trace of stage launch/exit
events.
-/

namespace GrandQC

/-- Model of `path.join a b` (and bash `"$A/$B"`): plain separator concatenation. -/
def pathJoin (a b : String) : String := a ++ "/" ++ b

/-- Split a character list on a separator character; mirrors
`String.splitOn` for a one-character separator. -/
def splitOnChar (sep : Char) : List Char → List (List Char)
  | [] => [[]]
  | c :: rest =>
    let r := splitOnChar sep rest
    if c = sep then [] :: r
    else
      match r with
      | [] => [[c]]
      | g :: gs => (c :: g) :: gs

/-- Model of `path.basename` / bash `basename`: the final path component. -/
def basename (p : String) : String :=
  match (splitOnChar '/' p.toList).getLast? with
  | some cs => String.mk cs
  | none => p

/-- The pipeline stages appearing in the repository. `run_art.sh` runs
`tissueDetect, qc, report, overlays`; `main.ts` additionally runs
`pdfReport` between `report` and `overlays`. -/
inductive Stage
  | tissueDetect
  | qc
  | report
  | pdfReport
  | overlays
deriving DecidableEq, Repr

/-- Workspace side effects performed by the orchestrators. -/
inductive Eff
  | mkdirP (dir : String)
  | cp (src dst : String)
deriving DecidableEq, Repr

/-- Stage process events: a stage's executable is launched, or its
process exits with a status code. -/
inductive Ev
  | launch (s : Stage)
  | exited (s : Stage) (code : Nat)
deriving DecidableEq, Repr

/-- Options accumulated by the `while [[ $# -gt 0 ]]` argument loop of
`run_art.sh` (lines 49-93), with the script's defaults. -/
structure ShellOpts where
  slidePath : Option String := none
  outputDir : Option String := none
  mppModel : String := "1.5"
  createGeojson : String := "Y"
  skipReport : Bool := false
  skipOverlays : Bool := false
  verbose : Bool := false
deriving DecidableEq, Repr

/-- The argument loop of `run_art.sh`. An unknown option calls
`usage` (exit 1): modelled as `none`. A value-taking flag given as the
last token makes `shift 2` fail, which under `set -e` also terminates
the script with status 1: also modelled as `none`. -/
def parseArgs : List String → ShellOpts → Option ShellOpts
  | [], o => some o
  | "--slide_path" :: v :: rest, o => parseArgs rest { o with slidePath := some v }
  | "--output_dir" :: v :: rest, o => parseArgs rest { o with outputDir := some v }
  | "--mpp_model" :: v :: rest, o => parseArgs rest { o with mppModel := v }
  | "--create_geojson" :: v :: rest, o => parseArgs rest { o with createGeojson := v }
  | "--no_report" :: rest, o => parseArgs rest { o with skipReport := true }
  | "--no_overlays" :: rest, o => parseArgs rest { o with skipOverlays := true }
  | "--verbose" :: rest, o => parseArgs rest { o with verbose := true }
  | _ :: _, _ => none

/-- Environment of one `run_art.sh` invocation: whether
`[ -f "$SLIDE_PATH" ]` holds, and the exit status each stage's python
process would return if launched. -/
structure ShellEnv where
  slideOnDisk : Bool
  code : Stage → Nat

/-- Observable outcome of a `run_art.sh` invocation: the script's exit
status, the workspace side effects performed, and the trace of stage
launch/exit events in the order they happened. -/
structure ShellResult where
  exitCode : Nat
  effects : List Eff
  trace : List Ev
deriving DecidableEq, Repr

/-- Placeholder for `"$SCRIPT_DIR/output/pipeline_$(date ...)"`. -/
def defaultOutputDir : String := "SCRIPT_DIR/output/pipeline_TIMESTAMP"

/-- The `run_art.sh` wrapper (under `set -e`, lines 17-212). Validation and
workspace preparation happen in source order; each python stage is a
plain command, so under `set -e` a nonzero exit status terminates the
whole script with that status — the `if [ $? -eq 0 ]` branches that
follow each stage can only ever see status 0. -/
def runArtSh (args : List String) (env : ShellEnv) : ShellResult :=
  match parseArgs args {} with
  | none => ⟨1, [], []⟩
  | some opts =>
    match opts.slidePath with
    | none => ⟨1, [], []⟩
    | some slidePath =>
      if env.slideOnDisk then
        let outDir := opts.outputDir.getD defaultOutputDir
        let slidesIn := pathJoin outDir "slides_in"
        let effs : List Eff :=
          [.mkdirP slidesIn, .cp slidePath (pathJoin slidesIn (basename slidePath))]
        let c1 := env.code .tissueDetect
        let t1 : List Ev := [.launch .tissueDetect, .exited .tissueDetect c1]
        if c1 ≠ 0 then ⟨c1, effs, t1⟩
        else
          let c2 := env.code .qc
          let t2 := t1 ++ [.launch .qc, .exited .qc c2]
          if c2 ≠ 0 then ⟨c2, effs, t2⟩
          else
            if opts.skipReport then
              if opts.skipOverlays then ⟨0, effs, t2⟩
              else
                let c4 := env.code .overlays
                let t4 := t2 ++ [.launch .overlays, .exited .overlays c4]
                if c4 ≠ 0 then ⟨c4, effs, t4⟩ else ⟨0, effs, t4⟩
            else
              let c3 := env.code .report
              let t3 := t2 ++ [.launch .report, .exited .report c3]
              if c3 ≠ 0 then ⟨c3, effs, t3⟩
              else
                if opts.skipOverlays then ⟨0, effs, t3⟩
                else
                  let c4 := env.code .overlays
                  let t4 := t3 ++ [.launch .overlays, .exited .overlays c4]
                  if c4 ≠ 0 then ⟨c4, effs, t4⟩ else ⟨0, effs, t4⟩
      else ⟨1, [], []⟩

/-- Per-stage outcome, read off a run's event trace: `succeeded` if
the stage was launched and exited with 0, `failed` if launched and
exited nonzero, `skipped` if never launched. -/
inductive Outcome
  | succeeded
  | failed
  | skipped
deriving DecidableEq, Repr

/-- The outcome a run recorded for a stage (derived from its event
trace). -/
def stageOutcome (trace : List Ev) (s : Stage) : Outcome :=
  if Ev.launch s ∈ trace then
    if Ev.exited s 0 ∈ trace then .succeeded else .failed
  else .skipped

/-! ### The Electron main-process handlers (`main.ts`) -/

/-- Environment of one `pathInsight:start-pipeline` invocation:
`fs` is `fs.existsSync`; `homedir`/`cwd` are `os.homedir()` and
`process.cwd()`; `dialogPick` is the directory-picker result used
when no candidate matches (`none` = canceled); `copyOk` says whether
`fs.copyFileSync` completes (it throws otherwise); `code` is the
close code of each stage's child process. -/
structure AppEnv where
  fs : String → Bool
  homedir : String
  cwd : String
  dialogPick : Option String
  copyOk : Bool
  code : Stage → Nat

/-- The candidate repo roots probed by the handler (main.ts 87-91):
`path.join(os.homedir(), 'grandqc')`, the hardcoded
`/Users/huugie/grandqc`, and `path.join(process.cwd(), '..', '..')`. -/
def candidatePaths (env : AppEnv) : List String :=
  [pathJoin env.homedir "grandqc", "/Users/huugie/grandqc",
   pathJoin env.cwd (pathJoin ".." "..")]

/-- The two markers a candidate must carry (main.ts 94-95): a `.venv`
directory and the `01_WSI_inference_OPENSLIDE_QC` directory. -/
def repoMarkersOk (fs : String → Bool) (root : String) : Bool :=
  fs (pathJoin root ".venv") && fs (pathJoin root "01_WSI_inference_OPENSLIDE_QC")

/-- The `for (const candidate of candidates)` loop (main.ts 93-99):
the first candidate whose two markers exist, else `none`. This runs
inside the handler on every invocation — there is no cache. -/
def resolveRepoRoot (env : AppEnv) : Option String :=
  (candidatePaths env).find? (repoMarkersOk env.fs)

/-- The run output directory `path.join(repoRoot,
'01_WSI_inference_OPENSLIDE_QC', 'output', 'pipeline_<Date.now()>')`. -/
def appOutputDir (root : String) : String :=
  pathJoin (pathJoin (pathJoin root "01_WSI_inference_OPENSLIDE_QC") "output")
    "pipeline_TIMESTAMP"

/-- The staging directory `slidesIn = path.join(outputDir, 'slides_in')`. -/
def appSlidesIn (root : String) : String := pathJoin (appOutputDir root) "slides_in"

/-- The venv interpreter `pythonPath = path.join(repoRoot, '.venv', 'bin', 'python3')`. -/
def appPython (root : String) : String :=
  pathJoin (pathJoin (pathJoin root ".venv") "bin") "python3"

/-- Result object returned over IPC: the `ok` flag, the `message`
field, and the `outputDir` field present on the success object. -/
structure IpcResult where
  ok : Bool
  message : String
  outputDir : Option String := none
deriving DecidableEq, Repr

/-- Exceptions that can escape the `try` block of the handler: a
`copyFileSync` failure, or a `runCmd` rejection carrying the child's
nonzero close code. -/
inductive Thrown
  | copyFailed
  | procExit (code : Nat)
deriving DecidableEq, Repr

/-- The message `String(err)` built by the catch block. `copyFailed` stands for the
system error text of the failed `copyFileSync`; a `runCmd` rejection
is `new Error('Process exited with code <c>')`. -/
def thrownMessage : Thrown → String
  | .copyFailed => "Error: EIO: copy failed"
  | .procExit c => "Error: Process exited with code " ++ toString c

/-- The stage order awaited by the handler (main.ts 164-187). -/
def appStageOrder : List Stage :=
  [.tissueDetect, .qc, .report, .pdfReport, .overlays]

/-- The sequence of `await runCmd(...)` calls: each stage is launched
only after the previous one's process closed with code 0; the first
nonzero close code rejects, which throws out of the stage sequence. -/
def runStagesApp (env : AppEnv) : List Stage → List Ev → Option Thrown × List Ev
  | [], t => (none, t)
  | s :: rest, t =>
    let c := env.code s
    let t2 := t ++ [Ev.launch s, Ev.exited s c]
    if c = 0 then runStagesApp env rest t2 else (some (.procExit c), t2)

/-- Outcome of the `try` block body of the `start-pipeline` handler
(main.ts 77-191): either a returned result object, or a thrown
exception (`Except.error`), together with the stage event trace and
the workspace side effects performed up to that point. -/
structure AppRun where
  result : Except Thrown IpcResult
  trace : List Ev
  effects : List Eff
deriving Repr

/-- The `try` block of the `start-pipeline` handler, in source order:
candidate resolution (dialog fallback when no candidate matches),
marker verification, workspace `mkdirSync` calls, `copyFileSync`
straight to the final name `slides_in/<basename>`, python check,
then the five awaited stages. -/
def startPipelineTry (env : AppEnv) (slidePath : String) : AppRun :=
  let repoRoot? :=
    match resolveRepoRoot env with
    | some r => some r
    | none => env.dialogPick
  match repoRoot? with
  | none => ⟨.ok ⟨false, "Repository folder not selected", none⟩, [], []⟩
  | some repoRoot =>
    if repoMarkersOk env.fs repoRoot then
      let outputDir := appOutputDir repoRoot
      let slidesIn := appSlidesIn repoRoot
      let effs : List Eff := [.mkdirP slidesIn, .mkdirP outputDir]
      if env.copyOk then
        let destSlide := pathJoin slidesIn (basename slidePath)
        let effs := effs ++ [.cp slidePath destSlide]
        if env.fs (appPython repoRoot) then
          match runStagesApp env appStageOrder [] with
          | (none, t) => ⟨.ok ⟨true, "Pipeline finished", some outputDir⟩, t, effs⟩
          | (some e, t) => ⟨.error e, t, effs⟩
        else
          ⟨.ok ⟨false, "Python not found at " ++ appPython repoRoot, none⟩, [], effs⟩
      else ⟨.error .copyFailed, [], effs⟩
    else
      ⟨.ok ⟨false,
        "Selected folder does not contain required .venv and 01_WSI_inference_OPENSLIDE_QC. Checked: "
          ++ repoRoot, none⟩, [], []⟩

/-- The whole `pathInsight:start-pipeline` handler: the early return
for a missing `slidePath` (main.ts 72-75), then the `try` body with
the catch block converting any thrown error into an
`{ ok: false, message: String(err) }` result (main.ts 192-196). -/
def startPipeline (env : AppEnv) (payload : Option String) :
    IpcResult × List Ev × List Eff :=
  match payload with
  | none => (⟨false, "No slide provided", none⟩, [], [])
  | some sp =>
    let r := startPipelineTry env sp
    match r.result with
    | .ok res => (res, r.trace, r.effects)
    | .error e => (⟨false, thrownMessage e, none⟩, r.trace, r.effects)

/-- The `pathInsight:open-report` handler (main.ts 223-237): check
`report.html` under the output directory; missing → `ok:false`
without any `shell.openPath` call; present → open it and `ok:true`.
The second component lists the `shell.openPath` invocations. -/
def openReport (fs : String → Bool) (outputDir : String) :
    IpcResult × List String :=
  let reportPath := pathJoin outputDir "report.html"
  if fs reportPath then (⟨true, "", none⟩, [reportPath])
  else (⟨false, "report.html not found", none⟩, [])

/-- The `pathInsight:open-pdf` handler (main.ts 240-254), identically
structured around `report.pdf`. -/
def openPdf (fs : String → Bool) (outputDir : String) :
    IpcResult × List String :=
  let pdfPath := pathJoin outputDir "report.pdf"
  if fs pdfPath then (⟨true, "", none⟩, [pdfPath])
  else (⟨false, "report.pdf not found", none⟩, [])

/-! ### The `runCmd` helper in isolation (main.ts 146-162) -/

/-- Observable behavior of one spawned child process: the data chunks
its two output streams emit, and its close code — `none` meaning the
process never emits `close` (it runs forever). -/
structure ProcBehavior where
  outData : List String
  errData : List String
  closeCode : Option Nat
deriving DecidableEq, Repr

/-- The settlement of the promise returned by `runCmd`: `none` when
the child never closes (the promise stays pending forever — `runCmd`
installs no timer), otherwise resolution on code 0 and rejection with
`Error('Process exited with code <c>')` on a nonzero code. -/
def runCmdOutcome (p : ProcBehavior) : Option (Except String Unit) :=
  match p.closeCode with
  | none => none
  | some c =>
    some (if c = 0 then .ok () else .error ("Process exited with code " ++ toString c))

/-- The termination signals `runCmd` sends to the child. The source
contains no `kill`, no `SIGTERM`/`SIGKILL`, and no timeout of any
kind, so this list is empty for every process behavior. -/
def runCmdSignals (_p : ProcBehavior) : List String := []

/-- The log lines forwarded to the renderer: the `Running: ...`
header, then the stdout chunks and the `[ERROR] `-tagged stderr
chunks (relative interleaving of the two streams not modelled). -/
def runCmdLogs (cmd : String) (args : List String) (p : ProcBehavior) : List String :=
  ("Running: " ++ cmd ++ " " ++ String.intercalate " " args)
    :: (p.outData ++ p.errData.map (fun l => "[ERROR] " ++ l))

/-! ### Content-level model of the slide copy (main.ts 132-136,
run_art.sh 113-115) -/

/-- A content-level file system: each path maps to the byte contents
of the file stored there, if any. -/
def CFS := String → Option (List Nat)

/-- The destination path the code hands to `fs.copyFileSync` /
`cp`: directly the final name `slides_in/<basename(slidePath)>` —
no temporary name is ever used and no rename is performed. -/
def copyDest (slidesIn slidePath : String) : String :=
  pathJoin slidesIn (basename slidePath)

/-- Both `copyFileSync` and `cp` write the destination file in place, chunk by
chunk. Interrupting the copy after `k` chunks leaves the first `k`
chunks of the source visible at the destination path. -/
def interruptedCopy (cfs : CFS) (src dst : String) (k : Nat) : CFS :=
  fun p => if p = dst then (cfs src).map (fun data => data.take k) else cfs p

/-! ### Substring test (used to state "the error lists every candidate") -/

/-- Whether the first list is an initial segment of the second. -/
def listStartsWith [DecidableEq α] : List α → List α → Bool
  | [], _ => true
  | _ :: _, [] => false
  | a :: as, b :: bs => if a = b then listStartsWith as bs else false

/-- Whether the first list occurs contiguously inside the second. -/
def listHasSub [DecidableEq α] : List α → List α → Bool
  | needle, [] => listStartsWith needle []
  | needle, hay@(_ :: rest) => listStartsWith needle hay || listHasSub needle rest

/-- Whether `needle` occurs as a substring of `hay`. -/
def hasSubstring (needle hay : String) : Bool :=
  listHasSub needle.toList hay.toList

/-! ### Concrete environments used as test inputs -/

/-- Event trace of a list of completed stage runs: each stage is
launched and its process exits before the next stage is launched. A
trace of this shape can never start a stage while an earlier one is
still running, and never launches out of order. -/
def blocks : List (Stage × Nat) → List Ev
  | [] => []
  | (s, c) :: rest => Ev.launch s :: Ev.exited s c :: blocks rest

/-- The stage order `run_art.sh` plans from its skip flags. -/
def shellPlannedOrder (opts : ShellOpts) : List Stage :=
  [.tissueDetect, .qc] ++ (if opts.skipReport then [] else [.report]) ++
    (if opts.skipOverlays then [] else [.overlays])

/-- The stages `run_art.sh` actually completes (mirrors the `set -e`
cascade of `runArtSh`), with each stage's exit code. -/
def shellStagesRun (opts : ShellOpts) (env : ShellEnv) : List (Stage × Nat) :=
  let c1 := env.code .tissueDetect
  if c1 ≠ 0 then [(.tissueDetect, c1)]
  else
    let c2 := env.code .qc
    if c2 ≠ 0 then [(.tissueDetect, c1), (.qc, c2)]
    else
      if opts.skipReport then
        if opts.skipOverlays then [(.tissueDetect, c1), (.qc, c2)]
        else [(.tissueDetect, c1), (.qc, c2), (.overlays, env.code .overlays)]
      else
        let c3 := env.code .report
        if c3 ≠ 0 then [(.tissueDetect, c1), (.qc, c2), (.report, c3)]
        else
          if opts.skipOverlays then [(.tissueDetect, c1), (.qc, c2), (.report, c3)]
          else
            [(.tissueDetect, c1), (.qc, c2), (.report, c3),
             (.overlays, env.code .overlays)]

/-- Shell environment with the slide on disk, `generate_report.py`
exiting 1, and every other stage exiting 0. -/
def envReportFails : ShellEnv := ⟨true, fun s => if s = .report then 1 else 0⟩

/-- Shell environment with the slide on disk, `main.py` (the QC
stage) exiting 3, and every other stage exiting 0. -/
def envQcFails : ShellEnv := ⟨true, fun s => if s = .qc then 3 else 0⟩

/-- Shell environment with the slide on disk, `wsi_tis_detect.py`
exiting 5, and every other stage exiting 0. -/
def envTdFails5 : ShellEnv := ⟨true, fun s => if s = .tissueDetect then 5 else 0⟩

/-- Shell environment with the slide on disk and all stages exiting 0. -/
def envAllOk : ShellEnv := ⟨true, fun _ => 0⟩

/-- File system where the repo lives at `/h/grandqc` (the home
candidate) with its two markers and the venv python present. -/
def fsHome : String → Bool := fun p =>
  p = "/h/grandqc/.venv" || p = "/h/grandqc/01_WSI_inference_OPENSLIDE_QC" ||
    p = "/h/grandqc/.venv/bin/python3"

/-- File system where the repo lives at `/Users/huugie/grandqc` (the
hardcoded second candidate) instead. -/
def fsHuugie : String → Bool := fun p =>
  p = "/Users/huugie/grandqc/.venv" ||
    p = "/Users/huugie/grandqc/01_WSI_inference_OPENSLIDE_QC" ||
    p = "/Users/huugie/grandqc/.venv/bin/python3"

/-- App environment over `fsHome` whose report stage exits 1 and all
other stages exit 0. -/
def appEnvReportFails : AppEnv :=
  ⟨fsHome, "/h", "/c", none, true, fun s => if s = .report then 1 else 0⟩

/-- App environment over `fsHome` whose QC stage exits 3 and all
other stages exit 0. -/
def appEnvQcFails : AppEnv :=
  ⟨fsHome, "/h", "/c", none, true, fun s => if s = .qc then 3 else 0⟩

/-- App environment over `fsHome` whose tissue-detection stage exits
5 and all other stages exit 0. -/
def appEnvTdFails : AppEnv :=
  ⟨fsHome, "/h", "/c", none, true, fun s => if s = .tissueDetect then 5 else 0⟩

/-- App environment over `fsHome` with every stage exiting 0. -/
def appEnvAllOk : AppEnv := ⟨fsHome, "/h", "/c", none, true, fun _ => 0⟩

/-- App environment over `fsHuugie`, same home and cwd as the
`fsHome` environments. -/
def appEnvHuugie : AppEnv := ⟨fsHuugie, "/h", "/c", none, true, fun _ => 0⟩

/-- App environment with an empty file system and a canceled
directory dialog. -/
def appEnvEmpty : AppEnv := ⟨fun _ => false, "/h", "/c", none, true, fun _ => 0⟩

/-! ## Claims -/

/-- A concrete one-file content filesystem: `slide.svs` holding three
bytes. -/
def cfsSlide : CFS := fun p => if p = "slide.svs" then some [7, 8, 9] else none

/-- The operational content of claim C4 over the `runCmd` model: a
process that never closes outlives every possible timeout, so the
runner must eventually send it a termination request and the stage
must still produce an outcome (`TimedOut`). -/
def timeoutClaim : Prop :=
  ∀ p : ProcBehavior, p.closeCode = none →
    runCmdSignals p ≠ [] ∧ runCmdOutcome p ≠ none

/-- The claim C3 over the copy model: either the code's copy target
is not the final destination name (i.e. a temporary name is used), or
an interrupted copy leaves nothing observable at the final name. -/
def atomicStagingClaim : Prop :=
  ∀ (cfs : CFS) (slidesIn slidePath : String) (k : Nat) (data : List Nat),
    cfs slidePath = some data → k < data.length →
    copyDest slidesIn slidePath ≠ pathJoin slidesIn (basename slidePath) ∨
    interruptedCopy cfs slidePath (copyDest slidesIn slidePath) k
      (pathJoin slidesIn (basename slidePath)) = none

/-- The claim C5 over the resolver model, first half: repeated calls
within one process (same home directory and working directory; the
file system may have changed in between) return an identical result —
i.e. the first resolution is cached. -/
def resolverCachedClaim : Prop :=
  ∀ env1 env2 : AppEnv, env1.homedir = env2.homedir → env1.cwd = env2.cwd →
    resolveRepoRoot env1 = resolveRepoRoot env2

/-- The claim C5, second half: when no candidate matches, resolution
fails with an error listing every candidate location tried. -/
def resolverListsClaim : Prop :=
  ∀ (env : AppEnv) (sp : String), resolveRepoRoot env = none → env.dialogPick = none →
    ∀ c ∈ candidatePaths env,
      hasSubstring c ((startPipeline env (some sp)).1.message) = true

/-- The claim C7 over the shell model: exit 0 on success, 1 on a
usage error (unknown option, missing or value-less flag, missing
`--slide_path`) or when the slide file is not found, and exit 2 when
a required stage fails. -/
def shellExitCodesClaim : Prop :=
  (∀ args env opts sp, parseArgs args {} = some opts → opts.slidePath = some sp →
    env.slideOnDisk = true → (∀ s, env.code s = 0) →
    (runArtSh args env).exitCode = 0) ∧
  (∀ args env, parseArgs args {} = none → (runArtSh args env).exitCode = 1) ∧
  (∀ args env opts, parseArgs args {} = some opts → opts.slidePath = none →
    (runArtSh args env).exitCode = 1) ∧
  (∀ args env opts sp, parseArgs args {} = some opts → opts.slidePath = some sp →
    env.slideOnDisk = false → (runArtSh args env).exitCode = 1) ∧
  (∀ args env opts sp, parseArgs args {} = some opts → opts.slidePath = some sp →
    env.slideOnDisk = true → env.code .tissueDetect ≠ 0 →
    (runArtSh args env).exitCode = 2)

/-! ## Theorems -/

/-- Helper: a string with a nonempty left part stays nonempty after
appending. -/
theorem length_append_pos (s t : String) (h : 0 < s.length) : 0 < (s ++ t).length := by
  rw [String.length_append]
  omega

/-- Helper: whichever way the `try` body ends, the handler reports
exactly the side effects the body performed. -/
theorem startPipeline_effects (env : AppEnv) (sp : String) :
    (startPipeline env (some sp)).2.2 = (startPipelineTry env sp).effects := by
  cases h : (startPipelineTry env sp).result <;> simp [startPipeline, h]

/-- Helper: likewise for the stage event trace. -/
theorem startPipeline_trace (env : AppEnv) (sp : String) :
    (startPipeline env (some sp)).2.1 = (startPipelineTry env sp).trace := by
  cases h : (startPipelineTry env sp).result <;> simp [startPipeline, h]

/-- Helper: a validated `run_art.sh` run's trace is exactly the
blocks of the stages it completes. -/
theorem runArtSh_trace_blocks (args : List String) (env : ShellEnv)
    (opts : ShellOpts) (sp : String) (hparse : parseArgs args {} = some opts)
    (hsp : opts.slidePath = some sp) (hdisk : env.slideOnDisk = true) :
    (runArtSh args env).trace = blocks (shellStagesRun opts env) := by
  simp only [runArtSh, hparse, hsp, hdisk, if_true, shellStagesRun]
  split_ifs <;> simp [blocks]

/-- Helper: the stages `run_art.sh` completes are an initial segment
of its planned order. -/
theorem shellStagesRun_take (opts : ShellOpts) (env : ShellEnv) :
    (shellStagesRun opts env).map Prod.fst
      = (shellPlannedOrder opts).take (shellStagesRun opts env).length := by
  simp only [shellStagesRun]
  split_ifs <;> simp [shellPlannedOrder, *]

/-- Helper: `runStagesApp` emits completed blocks in exactly the
order of the stage list it is given. -/
theorem runStagesApp_blocks (env : AppEnv) (stages : List Stage) (t0 : List Ev) :
    ∃ l, (runStagesApp env stages t0).2 = t0 ++ blocks l ∧
      l.map Prod.fst = stages.take l.length := by
  induction stages generalizing t0 with
  | nil => exact ⟨[], by simp [runStagesApp, blocks], rfl⟩
  | cons s rest ih =>
    by_cases hc : env.code s = 0
    · obtain ⟨l, hl, hmap⟩ := ih (t0 ++ [Ev.launch s, Ev.exited s (env.code s)])
      refine ⟨(s, env.code s) :: l, ?_, ?_⟩
      · rw [hc] at hl
        simp [runStagesApp, hc, hl, blocks]
      · simp [hmap, List.take_succ_cons]
    · refine ⟨[(s, env.code s)], ?_, ?_⟩
      · simp [runStagesApp, hc, blocks]
      · simp

/-- Helper: the app handler's trace is either empty (an early return
before any stage) or the trace of the awaited stage sequence. -/
theorem startPipelineTry_trace_shape (env : AppEnv) (sp : String) :
    (startPipelineTry env sp).trace = [] ∨
    (startPipelineTry env sp).trace = (runStagesApp env appStageOrder []).2 := by
  simp only [startPipelineTry]
  split
  · left; rfl
  · split_ifs with h1 h2 h3
    · rcases hrun : runStagesApp env appStageOrder [] with ⟨e?, t⟩
      cases e? <;> simp [hrun]
    · left; rfl
    · left; rfl
    · left; rfl

/-- C1: the spec (and the script's own dead `else` branches) say an
optional stage's failure is recorded as a warning and the next stage
still runs, with terminal status `CompletedWithWarnings`. The code
does the opposite: `run_art.sh` runs its stages under `set -e`, so
when `generate_report.py` exits 1 the script dies with status 1, the
overlay stage is never launched, and the warning branch is dead code;
likewise the app handler's `runCmd` rejects for the report stage, the
catch aborts the run with `ok: false`, and the PDF/overlay stages are
never launched. Evaluated here at the concrete failing input. -/
theorem c1_optional_failure_aborts_run :
    (runArtSh ["--slide_path", "sample.svs"] envReportFails).exitCode = 1 ∧
    (runArtSh ["--slide_path", "sample.svs"] envReportFails).exitCode ≠ 0 ∧
    Ev.launch .overlays ∉ (runArtSh ["--slide_path", "sample.svs"] envReportFails).trace ∧
    stageOutcome (runArtSh ["--slide_path", "sample.svs"] envReportFails).trace .report
      = .failed ∧
    stageOutcome (runArtSh ["--slide_path", "sample.svs"] envReportFails).trace .overlays
      = .skipped ∧
    (startPipeline appEnvReportFails (some "sample.svs")).1.ok = false ∧
    Ev.launch .pdfReport ∉ (startPipeline appEnvReportFails (some "sample.svs")).2.1 ∧
    Ev.launch .overlays ∉ (startPipeline appEnvReportFails (some "sample.svs")).2.1 := by
  decide

/-- C2: when a required stage fails, every later stage is skipped —
its executable is never launched and its derived outcome is
`Skipped` — and the run ends failed. Proved for both required stages
of both orchestrators. In `run_art.sh` (any parsed invocation with
the slide on disk): a nonzero exit of tissue detection ends the
script with that status under `set -e` and QC, report and overlays
are never launched; likewise a nonzero exit of the required QC stage
(after tissue detection succeeded) ends the script and neither
report nor overlays is ever launched. In the app handler (any
environment whose repo root auto-resolves, the copy succeeds and the
venv python exists): a tissue-detection rejection is caught with
`ok: false` and QC, report, PDF-report and overlays are never
launched; a QC rejection likewise leaves report, PDF-report and
overlays unlaunched. -/
theorem c2_required_failure_skips_all_later_stages :
    (∀ args env opts sp, parseArgs args {} = some opts → opts.slidePath = some sp →
      env.slideOnDisk = true → env.code .tissueDetect ≠ 0 →
      (runArtSh args env).exitCode = env.code .tissueDetect ∧
      (runArtSh args env).exitCode ≠ 0 ∧
      Ev.launch .qc ∉ (runArtSh args env).trace ∧
      Ev.launch .report ∉ (runArtSh args env).trace ∧
      Ev.launch .overlays ∉ (runArtSh args env).trace ∧
      stageOutcome (runArtSh args env).trace .qc = .skipped ∧
      stageOutcome (runArtSh args env).trace .report = .skipped ∧
      stageOutcome (runArtSh args env).trace .overlays = .skipped) ∧
    (∀ args env opts sp, parseArgs args {} = some opts → opts.slidePath = some sp →
      env.slideOnDisk = true → env.code .tissueDetect = 0 → env.code .qc ≠ 0 →
      (runArtSh args env).exitCode = env.code .qc ∧
      (runArtSh args env).exitCode ≠ 0 ∧
      Ev.launch .report ∉ (runArtSh args env).trace ∧
      Ev.launch .overlays ∉ (runArtSh args env).trace ∧
      stageOutcome (runArtSh args env).trace .report = .skipped ∧
      stageOutcome (runArtSh args env).trace .overlays = .skipped) ∧
    (∀ env sp root, resolveRepoRoot env = some root → env.copyOk = true →
      env.fs (appPython root) = true → env.code .tissueDetect ≠ 0 →
      (startPipeline env (some sp)).1.ok = false ∧
      Ev.launch .qc ∉ (startPipeline env (some sp)).2.1 ∧
      Ev.launch .report ∉ (startPipeline env (some sp)).2.1 ∧
      Ev.launch .pdfReport ∉ (startPipeline env (some sp)).2.1 ∧
      Ev.launch .overlays ∉ (startPipeline env (some sp)).2.1 ∧
      stageOutcome (startPipeline env (some sp)).2.1 .qc = .skipped ∧
      stageOutcome (startPipeline env (some sp)).2.1 .report = .skipped ∧
      stageOutcome (startPipeline env (some sp)).2.1 .pdfReport = .skipped ∧
      stageOutcome (startPipeline env (some sp)).2.1 .overlays = .skipped) ∧
    (∀ env sp root, resolveRepoRoot env = some root → env.copyOk = true →
      env.fs (appPython root) = true →
      env.code .tissueDetect = 0 → env.code .qc ≠ 0 →
      (startPipeline env (some sp)).1.ok = false ∧
      Ev.launch .report ∉ (startPipeline env (some sp)).2.1 ∧
      Ev.launch .pdfReport ∉ (startPipeline env (some sp)).2.1 ∧
      Ev.launch .overlays ∉ (startPipeline env (some sp)).2.1 ∧
      stageOutcome (startPipeline env (some sp)).2.1 .report = .skipped ∧
      stageOutcome (startPipeline env (some sp)).2.1 .pdfReport = .skipped ∧
      stageOutcome (startPipeline env (some sp)).2.1 .overlays = .skipped) := by
  refine ⟨?_, ?_, ?_, ?_⟩
  · intro args env opts sp hparse hsp hdisk htd
    simp only [runArtSh, hparse, hsp, hdisk, if_true]
    refine ⟨?_, ?_, ?_, ?_, ?_, ?_, ?_, ?_⟩ <;> simp [htd, stageOutcome]
  · intro args env opts sp hparse hsp hdisk htd hqc
    simp only [runArtSh, hparse, hsp, hdisk, htd, if_true]
    refine ⟨?_, ?_, ?_, ?_, ?_, ?_⟩ <;> simp [hqc, stageOutcome]
  · intro env sp root hroot hcopy hpy htd
    have hmark : repoMarkersOk env.fs root = true := List.find?_some hroot
    have hrun : runStagesApp env appStageOrder []
        = (some (.procExit (env.code .tissueDetect)),
           [.launch .tissueDetect, .exited .tissueDetect (env.code .tissueDetect)]) := by
      simp [runStagesApp, appStageOrder, htd]
    have htry : startPipelineTry env sp
        = ⟨.error (.procExit (env.code .tissueDetect)),
           [.launch .tissueDetect, .exited .tissueDetect (env.code .tissueDetect)],
           [.mkdirP (appSlidesIn root), .mkdirP (appOutputDir root),
            .cp sp (pathJoin (appSlidesIn root) (basename sp))]⟩ := by
      simp [startPipelineTry, hroot, hmark, hcopy, hpy, hrun]
    refine ⟨?_, ?_, ?_, ?_, ?_, ?_, ?_, ?_, ?_⟩ <;>
      simp [startPipeline, htry, stageOutcome]
  · intro env sp root hroot hcopy hpy htd hqc
    have hmark : repoMarkersOk env.fs root = true := List.find?_some hroot
    have hrun : runStagesApp env appStageOrder []
        = (some (.procExit (env.code .qc)),
           [.launch .tissueDetect, .exited .tissueDetect 0,
            .launch .qc, .exited .qc (env.code .qc)]) := by
      simp [runStagesApp, appStageOrder, htd, hqc]
    have htry : startPipelineTry env sp
        = ⟨.error (.procExit (env.code .qc)),
           [.launch .tissueDetect, .exited .tissueDetect 0,
            .launch .qc, .exited .qc (env.code .qc)],
           [.mkdirP (appSlidesIn root), .mkdirP (appOutputDir root),
            .cp sp (pathJoin (appSlidesIn root) (basename sp))]⟩ := by
      simp [startPipelineTry, hroot, hmark, hcopy, hpy, hrun]
    refine ⟨?_, ?_, ?_, ?_, ?_, ?_, ?_⟩ <;> simp [startPipeline, htry, stageOutcome]

/-- C2 witness: the theorem's four clauses at concrete environments —
tissue detection (required) exiting 5 in both orchestrators, and QC
(required) exiting 3 after tissue detection succeeds in both. -/
theorem c2_witness :
    ((runArtSh ["--slide_path", "s.svs"] envTdFails5).exitCode
        = envTdFails5.code .tissueDetect ∧
      (runArtSh ["--slide_path", "s.svs"] envTdFails5).exitCode ≠ 0 ∧
      Ev.launch .qc ∉ (runArtSh ["--slide_path", "s.svs"] envTdFails5).trace ∧
      Ev.launch .report ∉ (runArtSh ["--slide_path", "s.svs"] envTdFails5).trace ∧
      Ev.launch .overlays ∉ (runArtSh ["--slide_path", "s.svs"] envTdFails5).trace ∧
      stageOutcome (runArtSh ["--slide_path", "s.svs"] envTdFails5).trace .qc
        = .skipped ∧
      stageOutcome (runArtSh ["--slide_path", "s.svs"] envTdFails5).trace .report
        = .skipped ∧
      stageOutcome (runArtSh ["--slide_path", "s.svs"] envTdFails5).trace .overlays
        = .skipped) ∧
    ((startPipeline appEnvTdFails (some "s.svs")).1.ok = false ∧
      Ev.launch .qc ∉ (startPipeline appEnvTdFails (some "s.svs")).2.1 ∧
      Ev.launch .report ∉ (startPipeline appEnvTdFails (some "s.svs")).2.1 ∧
      Ev.launch .pdfReport ∉ (startPipeline appEnvTdFails (some "s.svs")).2.1 ∧
      Ev.launch .overlays ∉ (startPipeline appEnvTdFails (some "s.svs")).2.1 ∧
      stageOutcome (startPipeline appEnvTdFails (some "s.svs")).2.1 .qc = .skipped ∧
      stageOutcome (startPipeline appEnvTdFails (some "s.svs")).2.1 .report
        = .skipped ∧
      stageOutcome (startPipeline appEnvTdFails (some "s.svs")).2.1 .pdfReport
        = .skipped ∧
      stageOutcome (startPipeline appEnvTdFails (some "s.svs")).2.1 .overlays
        = .skipped) ∧
    ((runArtSh ["--slide_path", "s.svs"] envQcFails).exitCode = envQcFails.code .qc ∧
      (runArtSh ["--slide_path", "s.svs"] envQcFails).exitCode ≠ 0 ∧
      Ev.launch .report ∉ (runArtSh ["--slide_path", "s.svs"] envQcFails).trace ∧
      Ev.launch .overlays ∉ (runArtSh ["--slide_path", "s.svs"] envQcFails).trace ∧
      stageOutcome (runArtSh ["--slide_path", "s.svs"] envQcFails).trace .report
        = .skipped ∧
      stageOutcome (runArtSh ["--slide_path", "s.svs"] envQcFails).trace .overlays
        = .skipped) ∧
    ((startPipeline appEnvQcFails (some "s.svs")).1.ok = false ∧
      Ev.launch .report ∉ (startPipeline appEnvQcFails (some "s.svs")).2.1 ∧
      Ev.launch .pdfReport ∉ (startPipeline appEnvQcFails (some "s.svs")).2.1 ∧
      Ev.launch .overlays ∉ (startPipeline appEnvQcFails (some "s.svs")).2.1 ∧
      stageOutcome (startPipeline appEnvQcFails (some "s.svs")).2.1 .report
        = .skipped ∧
      stageOutcome (startPipeline appEnvQcFails (some "s.svs")).2.1 .pdfReport
        = .skipped ∧
      stageOutcome (startPipeline appEnvQcFails (some "s.svs")).2.1 .overlays
        = .skipped) := by
  refine ⟨?_, ?_, ?_, ?_⟩
  · exact c2_required_failure_skips_all_later_stages.1 ["--slide_path", "s.svs"]
      envTdFails5 { slidePath := some "s.svs" } "s.svs" (by decide) rfl rfl (by decide)
  · exact c2_required_failure_skips_all_later_stages.2.2.1 appEnvTdFails "s.svs"
      "/h/grandqc" (by decide) rfl rfl (by decide)
  · exact c2_required_failure_skips_all_later_stages.2.1 ["--slide_path", "s.svs"]
      envQcFails { slidePath := some "s.svs" } "s.svs" (by decide) rfl rfl rfl (by decide)
  · exact c2_required_failure_skips_all_later_stages.2.2.2 appEnvQcFails "s.svs"
      "/h/grandqc" (by decide) rfl rfl rfl (by decide)

/-- C3 counterexample: the code (`fs.copyFileSync(slidePath,
destSlide)` in main.ts 135, `cp` in run_art.sh 115) copies straight
to the final name `slides_in/<basename>` with no temporary name and
no rename, so interrupting the copy of `[7, 8, 9]` after one chunk
leaves the truncated file `[7]` at the final destination name. -/
theorem c3_interrupted_copy_counterexample : ¬ atomicStagingClaim := by
  intro h
  rcases h cfsSlide "out/slides_in" "slide.svs" 1 [7, 8, 9] rfl (by decide)
    with h1 | h2
  · exact h1 rfl
  · exact absurd h2 (by decide)

/-- C3 amended: the copy is not atomic. The copy target equals the
final destination name; an interrupted copy after `k` chunks leaves
exactly the first `k` chunks of the source at that final name; and
the handler's copy effect goes straight to the final name (reached
whenever a repo root auto-resolves and `copyFileSync` runs). -/
theorem c3_copy_goes_directly_to_final_name :
    (∀ (cfs : CFS) (slidesIn slidePath : String) (k : Nat) (data : List Nat),
      cfs slidePath = some data →
      interruptedCopy cfs slidePath (copyDest slidesIn slidePath) k
        (copyDest slidesIn slidePath) = some (data.take k)) ∧
    (∀ env sp root, resolveRepoRoot env = some root → env.copyOk = true →
      Eff.cp sp (copyDest (appSlidesIn root) sp) ∈ (startPipeline env (some sp)).2.2) := by
  constructor
  · intro cfs slidesIn slidePath k data hsrc
    simp [interruptedCopy, hsrc]
  · intro env sp root hroot hcopy
    have hmark : repoMarkersOk env.fs root = true := List.find?_some hroot
    rw [startPipeline_effects]
    simp only [startPipelineTry, hroot, hmark, hcopy, if_true]
    by_cases hpy : env.fs (appPython root) = true
    · rcases hrun : runStagesApp env appStageOrder [] with ⟨e?, t⟩
      cases e? <;> simp [hpy, hrun, copyDest]
    · simp [hpy, copyDest]

/-- C3 witness: the amended theorem at the concrete filesystem
`cfsSlide` (truncation to `[7]` after one chunk) and at the concrete
environment `appEnvAllOk` (the copy effect targets the final name
inside the run's `slides_in`). -/
theorem c3_witness :
    interruptedCopy cfsSlide "slide.svs" (copyDest "out/slides_in" "slide.svs") 1
      (copyDest "out/slides_in" "slide.svs") = some [7] ∧
    Eff.cp "sample.svs" (copyDest (appSlidesIn "/h/grandqc") "sample.svs")
      ∈ (startPipeline appEnvAllOk (some "sample.svs")).2.2 := by
  constructor
  · exact c3_copy_goes_directly_to_final_name.1 cfsSlide "out/slides_in" "slide.svs" 1
      [7, 8, 9] rfl
  · exact c3_copy_goes_directly_to_final_name.2 appEnvAllOk "sample.svs" "/h/grandqc"
      (by decide) rfl

/-- C4 counterexample: `runCmd` (main.ts 146-162) installs no timer
and contains no `kill`: a never-closing process receives no
termination request at all and its promise never settles, so the
claimed timeout behavior is false. -/
theorem c4_no_timeout_counterexample : ¬ timeoutClaim := by
  intro h
  rcases h ⟨[], [], none⟩ rfl with ⟨h1, _⟩
  exact h1 rfl

/-- C4 amended: `runCmd` never sends any termination signal; its
promise settles exactly when the child closes — resolving on close
code 0 and rejecting with `Process exited with code <c>` otherwise.
There is no timeout and no `TimedOut` outcome. -/
theorem c4_runCmd_has_no_timeout (p : ProcBehavior) :
    runCmdSignals p = [] ∧
    (runCmdOutcome p = none ↔ p.closeCode = none) ∧
    (p.closeCode = some 0 → runCmdOutcome p = some (.ok ())) ∧
    (∀ c, p.closeCode = some c → c ≠ 0 →
      runCmdOutcome p = some (.error ("Process exited with code " ++ toString c))) := by
  refine ⟨rfl, ?_, ?_, ?_⟩
  · cases hc : p.closeCode <;> simp [runCmdOutcome, hc]
  · intro h0
    simp [runCmdOutcome, h0]
  · intro c hc hne
    simp [runCmdOutcome, hc, hne]

/-- C4 witness: the amended theorem applied to a concrete process
that emits one stderr chunk and closes with code 2. -/
theorem c4_witness :
    runCmdSignals ⟨[], ["boom"], some 2⟩ = [] ∧
    runCmdOutcome ⟨[], ["boom"], some 2⟩
      = some (.error ("Process exited with code " ++ toString 2)) := by
  refine ⟨(c4_runCmd_has_no_timeout ⟨[], ["boom"], some 2⟩).1, ?_⟩
  exact (c4_runCmd_has_no_timeout ⟨[], ["boom"], some 2⟩).2.2.2 2 rfl (by decide)

/-- C5 counterexample: resolution is re-run on every handler
invocation (main.ts 85-99 live inside the handler; there is no
cache), so two calls in the same process see different repo roots
when the file system changed in between; and when no candidate
matches, the handler falls back to a directory dialog and — on cancel
— returns the fixed message `Repository folder not selected`, which
names no candidate at all. -/
theorem c5_resolver_counterexample : ¬ resolverCachedClaim ∧ ¬ resolverListsClaim := by
  constructor
  · intro h
    have := h appEnvAllOk appEnvHuugie rfl rfl
    exact absurd this (by decide)
  · intro h
    have := h appEnvEmpty "s.svs" (by decide) rfl "/Users/huugie/grandqc" (by decide)
    exact absurd this (by decide)

/-- C5 amended: resolution is recomputed per call as a pure function
of the current file system — two calls agree whenever the file system
(and home/cwd) agree; a successful resolution returns the first
candidate carrying both markers; and when no candidate matches and
the fallback dialog is canceled, the handler returns `ok: false` with
the fixed message `Repository folder not selected` (no candidate
list). -/
theorem c5_resolver_recomputes_per_call :
    (∀ env1 env2 : AppEnv, (∀ p, env1.fs p = env2.fs p) →
      env1.homedir = env2.homedir → env1.cwd = env2.cwd →
      resolveRepoRoot env1 = resolveRepoRoot env2) ∧
    (∀ env root, resolveRepoRoot env = some root →
      root ∈ candidatePaths env ∧ repoMarkersOk env.fs root = true) ∧
    (∀ env sp, resolveRepoRoot env = none → env.dialogPick = none →
      (startPipeline env (some sp)).1
        = ⟨false, "Repository folder not selected", none⟩) := by
  refine ⟨?_, ?_, ?_⟩
  · intro env1 env2 hfs hh hc
    have hf : env1.fs = env2.fs := funext hfs
    simp [resolveRepoRoot, candidatePaths, hf, hh, hc]
  · intro env root hroot
    exact ⟨List.mem_of_find?_eq_some hroot, List.find?_some hroot⟩
  · intro env sp hres hdp
    simp [startPipeline, startPipelineTry, hres, hdp]

/-- C5 witness: the amended theorem at concrete environments — two
identical-filesystem calls agree, the successful resolution of
`appEnvAllOk` is the first candidate `/h/grandqc` with markers, and
the canceled-dialog run of `appEnvEmpty` yields the fixed message. -/
theorem c5_witness :
    resolveRepoRoot appEnvAllOk = resolveRepoRoot appEnvReportFails ∧
    ("/h/grandqc" ∈ candidatePaths appEnvAllOk ∧
      repoMarkersOk appEnvAllOk.fs "/h/grandqc" = true) ∧
    (startPipeline appEnvEmpty (some "s.svs")).1
      = ⟨false, "Repository folder not selected", none⟩ := by
  refine ⟨?_, ?_, ?_⟩
  · exact c5_resolver_recomputes_per_call.1 appEnvAllOk appEnvReportFails
      (fun p => rfl) rfl rfl
  · exact c5_resolver_recomputes_per_call.2.1 appEnvAllOk "/h/grandqc" (by decide)
  · exact c5_resolver_recomputes_per_call.2.2 appEnvEmpty "s.svs" (by decide) rfl

/-- C6: stages run strictly sequentially in ascending order. Every
validated `run_art.sh` run's trace decomposes into completed blocks
(launch, then exit, before the next launch) whose stage order is an
initial segment of the planned order; and every app-handler run's
trace decomposes into completed blocks whose stage order is an
initial segment of `[tissueDetect, qc, report, pdfReport,
overlays]`. In particular stage i+1 is never launched before stage
i's process has exited, and never out of order. -/
theorem c6_stages_sequential_in_order :
    (∀ args env opts sp, parseArgs args {} = some opts → opts.slidePath = some sp →
      env.slideOnDisk = true →
      ∃ l, (runArtSh args env).trace = blocks l ∧
        l.map Prod.fst = (shellPlannedOrder opts).take l.length) ∧
    (∀ env payload, ∃ l, (startPipeline env payload).2.1 = blocks l ∧
      l.map Prod.fst = appStageOrder.take l.length) := by
  constructor
  · intro args env opts sp hparse hsp hdisk
    exact ⟨shellStagesRun opts env,
      runArtSh_trace_blocks args env opts sp hparse hsp hdisk,
      shellStagesRun_take opts env⟩
  · intro env payload
    cases payload with
    | none => exact ⟨[], rfl, rfl⟩
    | some sp =>
      rw [startPipeline_trace]
      obtain h | h := startPipelineTry_trace_shape env sp
      · rw [h]; exact ⟨[], rfl, rfl⟩
      · rw [h]
        obtain ⟨l, hl, hm⟩ := runStagesApp_blocks env appStageOrder []
        exact ⟨l, by simpa using hl, hm⟩

/-- C6 witness: the theorem at the all-stages-succeed environments —
a parsed shell invocation with the slide on disk, and the app handler
on a resolvable repo. -/
theorem c6_witness :
    (∃ l, (runArtSh ["--slide_path", "s.svs"] envAllOk).trace = blocks l ∧
      l.map Prod.fst
        = (shellPlannedOrder { slidePath := some "s.svs" }).take l.length) ∧
    (∃ l, (startPipeline appEnvAllOk (some "s.svs")).2.1 = blocks l ∧
      l.map Prod.fst = appStageOrder.take l.length) :=
  ⟨c6_stages_sequential_in_order.1 ["--slide_path", "s.svs"] envAllOk
      { slidePath := some "s.svs" } "s.svs" (by decide) rfl rfl,
    c6_stages_sequential_in_order.2 appEnvAllOk (some "s.svs")⟩

/-- C7 counterexample: the script contains no `exit 2` at all. Under
`set -e` a failing required stage terminates the script with that
stage's own exit status (the explicit `exit 1` after each stage is
dead code), so when tissue detection exits 5 the script exits 5, not
2. -/
theorem c7_exit_codes_counterexample : ¬ shellExitCodesClaim := by
  intro h
  have := h.2.2.2.2 ["--slide_path", "s.svs"] envTdFails5
    { slidePath := some "s.svs" } "s.svs" (by decide) rfl rfl (by decide)
  exact absurd this (by decide)

/-- C7 amended: exit 0 on success; exit 1 on a usage error or when
the slide file is missing; and on a required-stage failure the script
exits with the failing stage's own exit status (whatever `set -e`
propagates), not with the fixed code 2. -/
theorem c7_exit_codes_amended :
    (∀ args env opts sp, parseArgs args {} = some opts → opts.slidePath = some sp →
      env.slideOnDisk = true → (∀ s, env.code s = 0) →
      (runArtSh args env).exitCode = 0) ∧
    (∀ args env, parseArgs args {} = none → (runArtSh args env).exitCode = 1) ∧
    (∀ args env opts, parseArgs args {} = some opts → opts.slidePath = none →
      (runArtSh args env).exitCode = 1) ∧
    (∀ args env opts sp, parseArgs args {} = some opts → opts.slidePath = some sp →
      env.slideOnDisk = false → (runArtSh args env).exitCode = 1) ∧
    (∀ args env opts sp, parseArgs args {} = some opts → opts.slidePath = some sp →
      env.slideOnDisk = true → env.code .tissueDetect ≠ 0 →
      (runArtSh args env).exitCode = env.code .tissueDetect) ∧
    (∀ args env opts sp, parseArgs args {} = some opts → opts.slidePath = some sp →
      env.slideOnDisk = true → env.code .tissueDetect = 0 → env.code .qc ≠ 0 →
      (runArtSh args env).exitCode = env.code .qc) := by
  refine ⟨?_, ?_, ?_, ?_, ?_, ?_⟩
  · intro args env opts sp hparse hsp hdisk hall
    simp only [runArtSh, hparse, hsp, hdisk, if_true, hall]
    split_ifs <;> simp
  · intro args env hparse
    simp [runArtSh, hparse]
  · intro args env opts hparse hsp
    simp [runArtSh, hparse, hsp]
  · intro args env opts sp hparse hsp hdisk
    simp [runArtSh, hparse, hsp, hdisk]
  · intro args env opts sp hparse hsp hdisk htd
    simp [runArtSh, hparse, hsp, hdisk, htd]
  · intro args env opts sp hparse hsp hdisk htd hqc
    simp [runArtSh, hparse, hsp, hdisk, htd, hqc]

/-- C7 witness: the amended theorem at concrete inputs — all stages
succeeding exits 0, an unknown option exits 1, tissue detection
exiting 5 makes the script exit 5, and QC exiting 3 makes it exit
3. -/
theorem c7_witness :
    (runArtSh ["--slide_path", "s.svs"] envAllOk).exitCode = 0 ∧
    (runArtSh ["--oops"] envAllOk).exitCode = 1 ∧
    (runArtSh ["--slide_path", "s.svs"] envTdFails5).exitCode
      = envTdFails5.code .tissueDetect ∧
    (runArtSh ["--slide_path", "s.svs"] envQcFails).exitCode
      = envQcFails.code .qc := by
  refine ⟨?_, ?_, ?_, ?_⟩
  · exact c7_exit_codes_amended.1 ["--slide_path", "s.svs"] envAllOk
      { slidePath := some "s.svs" } "s.svs" (by decide) rfl rfl (fun s => rfl)
  · exact c7_exit_codes_amended.2.1 ["--oops"] envAllOk (by decide)
  · exact c7_exit_codes_amended.2.2.2.2.1 ["--slide_path", "s.svs"] envTdFails5
      { slidePath := some "s.svs" } "s.svs" (by decide) rfl rfl (by decide)
  · exact c7_exit_codes_amended.2.2.2.2.2 ["--slide_path", "s.svs"] envQcFails
      { slidePath := some "s.svs" } "s.svs" (by decide) rfl rfl rfl (by decide)

/-- C8: a malformed run request is rejected before any side effect.
In `run_art.sh`: an unparsable argument list, a missing
`--slide_path`, or a missing slide file each exit with status 1
having performed no `mkdir`, no copy and no stage launch. In the app
handler: a payload without a slide path returns `ok: false, "No
slide provided"` with no side effect and no stage launch. -/
theorem c8_usage_error_rejected_before_side_effects :
    (∀ args env, parseArgs args {} = none → runArtSh args env = ⟨1, [], []⟩) ∧
    (∀ args env opts, parseArgs args {} = some opts → opts.slidePath = none →
      runArtSh args env = ⟨1, [], []⟩) ∧
    (∀ args env opts sp, parseArgs args {} = some opts → opts.slidePath = some sp →
      env.slideOnDisk = false → runArtSh args env = ⟨1, [], []⟩) ∧
    (∀ env, startPipeline env none = (⟨false, "No slide provided", none⟩, [], [])) := by
  refine ⟨?_, ?_, ?_, ?_⟩
  · intro args env hparse
    simp [runArtSh, hparse]
  · intro args env opts hparse hsp
    simp [runArtSh, hparse, hsp]
  · intro args env opts sp hparse hsp hdisk
    simp [runArtSh, hparse, hsp, hdisk]
  · intro env
    rfl

/-- C8 witness: the theorem at concrete malformed requests — an
unknown option, a flag list without `--slide_path`, a missing slide
file, and a payload without a slide path. -/
theorem c8_witness :
    runArtSh ["--oops"] envAllOk = ⟨1, [], []⟩ ∧
    runArtSh ["--verbose"] envAllOk = ⟨1, [], []⟩ ∧
    runArtSh ["--slide_path", "gone.svs"] ⟨false, fun _ => 0⟩ = ⟨1, [], []⟩ ∧
    startPipeline appEnvAllOk none = (⟨false, "No slide provided", none⟩, [], []) := by
  refine ⟨?_, ?_, ?_, ?_⟩
  · exact c8_usage_error_rejected_before_side_effects.1 ["--oops"] envAllOk (by decide)
  · exact c8_usage_error_rejected_before_side_effects.2.1 ["--verbose"] envAllOk
      { verbose := true } (by decide) rfl
  · exact c8_usage_error_rejected_before_side_effects.2.2.1 ["--slide_path", "gone.svs"]
      ⟨false, fun _ => 0⟩ { slidePath := some "gone.svs" } "gone.svs" (by decide) rfl rfl
  · exact c8_usage_error_rejected_before_side_effects.2.2.2 appEnvAllOk

/-- C9: the start-pipeline handler always returns a result object
carrying an `ok` field and never lets an exception escape: the
throwing primitives (`copyFileSync`, `runCmd` rejections) are
modelled as `Except.error` values of `startPipelineTry`, and
`startPipeline` is a total function whose catch clause converts
every such error into a result. Moreover every returned result is
either the success object (`ok: true`, message `Pipeline finished`,
with an output directory) or an error result (`ok: false`) carrying
a nonempty diagnostic message. -/
theorem c9_handler_always_returns_ok_result (env : AppEnv) (payload : Option String) :
    ((startPipeline env payload).1.ok = true ∧
      (startPipeline env payload).1.message = "Pipeline finished" ∧
      ((startPipeline env payload).1.outputDir).isSome = true) ∨
    ((startPipeline env payload).1.ok = false ∧
      0 < ((startPipeline env payload).1.message).length) := by
  cases payload with
  | none =>
    refine Or.inr ⟨rfl, ?_⟩
    show 0 < ("No slide provided" : String).length
    decide
  | some sp =>
    cases hres : (startPipelineTry env sp).result with
    | error e =>
      have hfst : (startPipeline env (some sp)).1 = ⟨false, thrownMessage e, none⟩ := by
        simp [startPipeline, hres]
      rw [hfst]
      refine Or.inr ⟨rfl, ?_⟩
      cases e with
      | copyFailed => decide
      | procExit c => exact length_append_pos _ _ (by decide)
    | ok res =>
      have hfst : (startPipeline env (some sp)).1 = res := by
        simp [startPipeline, hres]
      rw [hfst]
      simp only [startPipelineTry] at hres
      split at hres
      · rw [← Except.ok.inj hres]
        exact Or.inr ⟨rfl, by decide⟩
      · split_ifs at hres with h1 h2 h3
        · rcases hrun : runStagesApp env appStageOrder [] with ⟨e?, t⟩
          rw [hrun] at hres
          cases e? with
          | none =>
            rw [← Except.ok.inj hres]
            exact Or.inl ⟨rfl, rfl, rfl⟩
          | some e => exact Except.noConfusion hres
        · rw [← Except.ok.inj hres]
          exact Or.inr ⟨rfl, length_append_pos _ _ (by decide)⟩
        · rw [← Except.ok.inj hres]
          exact Or.inr ⟨rfl, length_append_pos _ _ (by decide)⟩

/-- C10: the open-report and open-pdf handlers are guarded by an
existence check on the fixed-name file: when `report.html`
(respectively `report.pdf`) does not exist under the given output
directory they return `ok: false` with a not-found message and
invoke no OS open operation; when it exists they invoke the open
operation on exactly that file and return `ok: true`. -/
theorem c10_open_handlers_guarded_by_existence (fs : String → Bool) (dir : String) :
    (fs (pathJoin dir "report.html") = false →
      openReport fs dir = (⟨false, "report.html not found", none⟩, [])) ∧
    (fs (pathJoin dir "report.html") = true →
      openReport fs dir = (⟨true, "", none⟩, [pathJoin dir "report.html"])) ∧
    (fs (pathJoin dir "report.pdf") = false →
      openPdf fs dir = (⟨false, "report.pdf not found", none⟩, [])) ∧
    (fs (pathJoin dir "report.pdf") = true →
      openPdf fs dir = (⟨true, "", none⟩, [pathJoin dir "report.pdf"])) := by
  refine ⟨?_, ?_, ?_, ?_⟩ <;> intro h <;> simp [openReport, openPdf, h]

/-- C10 witness: the theorem at a concrete output directory holding
`report.html` but no `report.pdf`. -/
theorem c10_witness :
    openReport (fun p => p = "out/report.html") "out"
      = (⟨true, "", none⟩, [pathJoin "out" "report.html"]) ∧
    openPdf (fun p => p = "out/report.html") "out"
      = (⟨false, "report.pdf not found", none⟩, []) := by
  constructor
  · exact (c10_open_handlers_guarded_by_existence
      (fun p => p = "out/report.html") "out").2.1 (by decide)
  · exact (c10_open_handlers_guarded_by_existence
      (fun p => p = "out/report.html") "out").2.2.1 (by decide)

end GrandQC
